import Mathlib

/-!
# Verification of the `python-minutedock` client library

Shallow embedding of `minutedock/models.py`, `minutedock/api.py`,
`minutedock/endpoints.py` and `minutedock/exceptions.py`, together with
theorems settling the specification claims about the library.

Modelling conventions:
* Python values stored in an entity's attributes are modelled by `Value`,
  a JSON-like value type.  Python `list`, `tuple` and `set` attribute
  values are modelled uniformly by `Value.vlist` (the source's `to_dict`
  converts all three to a plain list anyway).  Python floats are out of
  scope for the claims and are not modelled.
* Python dictionaries are modelled as association lists in insertion
  order; for entities of one type the keys always appear in the declared
  field order, so list equality coincides with Python dict equality there.
* The external collaborators (the `requests` transport, the `json` codec
  and `urllib.parse`) are black boxes per the specification; they are
  modelled by their documented behaviour.  A request body is kept as the
  association list that the source passes into `json.dumps`; the HTTP
  response is an explicit parameter of the dispatcher, given as a status
  code plus the already-decoded JSON body.
-/

/-- A JSON-like value, the type of entity attribute values and of the
values of parameter dictionaries in the facade. -/
inductive Value where
  | vnull
  | vbool (b : Bool)
  | vint (n : Int)
  | vstr (s : String)
  | vlist (xs : List Value)

/-- Structural equality test on `Value` (Python `==` on JSON-like values). -/
def Value.beq : Value → Value → Bool
  | .vnull, .vnull => true
  | .vbool a, .vbool b => a == b
  | .vint a, .vint b => a == b
  | .vstr a, .vstr b => a == b
  | .vlist xs, .vlist ys => beqList xs ys
  | _, _ => false
where
  beqList : List Value → List Value → Bool
  | [], [] => true
  | x :: xs, y :: ys => Value.beq x y && beqList xs ys
  | _, _ => false

mutual

def Value.beq_rfl : ∀ a : Value, Value.beq a a = true
  | .vnull => rfl
  | .vbool a => by simp [Value.beq]
  | .vint a => by simp [Value.beq]
  | .vstr a => by simp [Value.beq]
  | .vlist xs => by simpa [Value.beq] using Value.beqList_rfl xs

def Value.beqList_rfl : ∀ xs : List Value, Value.beq.beqList xs xs = true
  | [] => rfl
  | x :: xs => by
      simp only [Value.beq.beqList, Bool.and_eq_true]
      exact ⟨Value.beq_rfl x, Value.beqList_rfl xs⟩

end

mutual

def Value.eq_of_beq : ∀ a b : Value, Value.beq a b = true → a = b
  | .vnull, .vnull, _ => rfl
  | .vbool a, .vbool b, h => by simp_all [Value.beq]
  | .vint a, .vint b, h => by simp_all [Value.beq]
  | .vstr a, .vstr b, h => by simp_all [Value.beq]
  | .vlist xs, .vlist ys, h => by
      simp only [Value.beq] at h
      simp [Value.eqList_of_beqList xs ys h]
  | .vnull, .vbool _, h => by simp [Value.beq] at h
  | .vnull, .vint _, h => by simp [Value.beq] at h
  | .vnull, .vstr _, h => by simp [Value.beq] at h
  | .vnull, .vlist _, h => by simp [Value.beq] at h
  | .vbool _, .vnull, h => by simp [Value.beq] at h
  | .vbool _, .vint _, h => by simp [Value.beq] at h
  | .vbool _, .vstr _, h => by simp [Value.beq] at h
  | .vbool _, .vlist _, h => by simp [Value.beq] at h
  | .vint _, .vnull, h => by simp [Value.beq] at h
  | .vint _, .vbool _, h => by simp [Value.beq] at h
  | .vint _, .vstr _, h => by simp [Value.beq] at h
  | .vint _, .vlist _, h => by simp [Value.beq] at h
  | .vstr _, .vnull, h => by simp [Value.beq] at h
  | .vstr _, .vbool _, h => by simp [Value.beq] at h
  | .vstr _, .vint _, h => by simp [Value.beq] at h
  | .vstr _, .vlist _, h => by simp [Value.beq] at h
  | .vlist _, .vnull, h => by simp [Value.beq] at h
  | .vlist _, .vbool _, h => by simp [Value.beq] at h
  | .vlist _, .vint _, h => by simp [Value.beq] at h
  | .vlist _, .vstr _, h => by simp [Value.beq] at h

def Value.eqList_of_beqList : ∀ xs ys : List Value,
    Value.beq.beqList xs ys = true → xs = ys
  | [], [], _ => rfl
  | x :: xs, y :: ys, h => by
      simp only [Value.beq.beqList, Bool.and_eq_true] at h
      rw [Value.eq_of_beq x y h.1, Value.eqList_of_beqList xs ys h.2]
  | [], _ :: _, h => by simp [Value.beq.beqList] at h
  | _ :: _, [], h => by simp [Value.beq.beqList] at h

end

instance : DecidableEq Value := fun a b =>
  decidable_of_iff (Value.beq a b = true)
    ⟨Value.eq_of_beq a b, fun h => h ▸ Value.beq_rfl a⟩

/-- Python truthiness of a `Value`: `None`, `False`, `0`, `""` and `[]`
are falsy, everything else is truthy. -/
def Value.truthy : Value → Bool
  | .vnull => false
  | .vbool b => b
  | .vint n => n != 0
  | .vstr s => s != ""
  | .vlist xs => !xs.isEmpty

/-- Whether a `Value` models a Python collection of the kinds tested by
`to_dict`'s `isinstance(..., (list, tuple, set))` check. -/
def Value.is_collection : Value → Bool
  | .vlist _ => true
  | _ => false

/-- A decoded JSON response body as handed to the record factory:
`None`, a single object, or an array of objects
(`minutedock/models.py`, `BaseModel._create_from_dict`). -/
inductive ApiJson where
  | jnull
  | obj (m : List (String × Value))
  | arr (ms : List (List (String × Value)))
deriving DecidableEq

/-- An entity instance: the attribute bag written by `BaseModel.__init__`
subclasses, i.e. one value per declared field, in declared field order
(`minutedock/models.py`). -/
structure Entity where
  fields : List (String × Value)
deriving DecidableEq

/-- The attribute bag built by each model's `__init__`:
`setattr(self, attribute, kwargs.get(attribute, default))` for every
`(attribute, default)` of the type's `attribute_defaults`
(`minutedock/models.py`). -/
def mkFields (defaults : List (String × Value)) (kwargs : List (String × Value)) :
    List (String × Value) :=
  defaults.map (fun kd => (kd.1, (kwargs.lookup kd.1).getD kd.2))

/-- An entity of the type whose `attribute_defaults` is `defaults`,
constructed from keyword arguments `kwargs` (extra keys in `kwargs` are
ignored, exactly as `kwargs.get(attribute, default)` ignores them). -/
def BaseModel.init (defaults : List (String × Value)) (kwargs : List (String × Value)) :
    Entity :=
  ⟨mkFields defaults kwargs⟩

/-- `BaseModel.to_dict` (`minutedock/models.py`, lines 37-53): iterate the
declared fields in order; a `list`/`tuple`/`set` value is always included
(as a list; in this JSON-value model its elements have no `to_dict`, so
they are kept as they are), any other value is included iff it is truthy.
The nested-entity branch (`getattr(value, "to_dict")`) cannot fire on
JSON-like values and so has no counterpart here. -/
def to_dict (e : Entity) : List (String × Value) :=
  dictFilter e.fields
where
  /-- The field-selection rule of `to_dict` applied to the attribute bag:
  keep a field iff its value is a collection or truthy. -/
  dictFilter (fs : List (String × Value)) : List (String × Value) :=
    fs.filter (fun kv => kv.2.is_collection || kv.2.truthy)

/-- `BaseModel.__eq__` (`minutedock/models.py`, lines 14-15): compare the
two serialized mappings `_value.to_dict() == self.to_dict()`. -/
def __eq__ (self other : Entity) : Bool :=
  decide (to_dict other = to_dict self)

/-- The result of `BaseModel._create_from_dict`: Python `None`, a single
entity, or a list of entities. -/
inductive FactoryResult where
  | nothing
  | one (e : Entity)
  | many (es : List Entity)
deriving DecidableEq

/-- `BaseModel._create_from_dict` (`minutedock/models.py`, lines 55-79) at
a type with `attribute_defaults = defaults`.  `None` input yields `None`;
a list input yields one entity per element (`cls(**value)`); a mapping
input yields `cls(**json_data)`.  All call sites pass no extra `kwargs`,
so the kwargs-merge is the identity, and the `_json` backreference is an
undeclared attribute invisible to `to_dict`/`__eq__` and is not modelled. -/
def _create_from_dict (defaults : List (String × Value)) : ApiJson → FactoryResult
  | .jnull => .nothing
  | .obj m => .one (BaseModel.init defaults m)
  | .arr ms => .many (ms.map (BaseModel.init defaults))

/-- `Report.attribute_defaults` (`minutedock/models.py`). -/
def Report.attribute_defaults : List (String × Value) :=
  [("description", .vnull), ("total_entries", .vnull), ("hours", .vnull),
   ("billable_hours", .vnull), ("billable_value", .vnull)]

/-- `User.attribute_defaults` (`minutedock/models.py`). -/
def User.attribute_defaults : List (String × Value) :=
  [("id", .vnull), ("email", .vnull), ("first_name", .vnull), ("last_name", .vnull)]

/-- `Account.attribute_defaults` (`minutedock/models.py`). -/
def Account.attribute_defaults : List (String × Value) :=
  [("id", .vnull), ("name", .vnull)]

/-- `Contact.attribute_defaults` (`minutedock/models.py`). -/
def Contact.attribute_defaults : List (String × Value) :=
  [("id", .vnull), ("budget_type", .vnull), ("budget_frequency", .vnull),
   ("budget_target", .vnull), ("budget_progress", .vnull),
   ("default_rate_dollars", .vnull), ("pinned", .vnull), ("name", .vnull),
   ("short_code", .vnull), ("active", .vnull)]

/-- `Project.attribute_defaults` (`minutedock/models.py`). -/
def Project.attribute_defaults : List (String × Value) :=
  [("id", .vnull), ("budget_type", .vnull), ("budget_frequency", .vnull),
   ("budget_target", .vnull), ("budget_progress", .vnull),
   ("default_rate_dollars", .vnull), ("pinned", .vnull), ("name", .vnull),
   ("contact_id", .vnull), ("short_code", .vnull), ("active", .vnull),
   ("hidden", .vnull), ("description", .vnull)]

/-- `Task.attribute_defaults` (`minutedock/models.py`). -/
def Task.attribute_defaults : List (String × Value) :=
  [("id", .vnull), ("budget_type", .vnull), ("budget_frequency", .vnull),
   ("budget_target", .vnull), ("budget_progress", .vnull),
   ("default_rate_dollars", .vnull), ("pinned", .vnull), ("short_code", .vnull),
   ("active", .vnull), ("hidden", .vnull), ("description", .vnull),
   ("has_detail", .vnull)]

/-- `TimeEntry.attribute_defaults` (`minutedock/models.py`). -/
def TimeEntry.attribute_defaults : List (String × Value) :=
  [("id", .vnull), ("account_id", .vnull), ("description", .vnull),
   ("duration", .vnull), ("contact_id", .vnull), ("project_id", .vnull),
   ("task_ids", .vnull), ("invoice_id", .vnull), ("logged_at", .vnull)]

/-- `Dock.attribute_defaults` (`minutedock/models.py`). -/
def Dock.attribute_defaults : List (String × Value) :=
  [("id", .vnull), ("account_id", .vnull), ("description", .vnull),
   ("duration", .vnull), ("contact_id", .vnull), ("project_id", .vnull),
   ("task_ids", .vnull), ("timer_active", .vnull)]

/-- `ClientException` (`minutedock/exceptions.py`): the library-local
exception for errors not involving an interaction with the API. -/
inductive ClientException where
  | mk (msg : String)
deriving DecidableEq

/-- Modelled from the spec: `BASE_URL` is imported from the repository's
`minutedock/constants.py`, which is not among the given source files.  The
spec fixes it to an `https` URL for the fixed base host of the service
("HTTPS requests against a fixed base host", "a fixed base authority"),
with no path or query of its own. -/
def BASE_URL : String := "https://minutedock.com"

/-- `API_PATH` (`minutedock/endpoints.py`): the fixed endpoint paths. -/
def API_PATH : List (String × String) :=
  [("users", "/api/v1/users"),
   ("current_user", "/api/v1/users/me"),
   ("accounts", "/api/v1/accounts"),
   ("current_account", "/api/v1/accounts/current"),
   ("contacts", "/api/v1/contacts"),
   ("projects", "/api/v1/projects"),
   ("tasks", "/api/v1/tasks"),
   ("current_entry", "/api/v1/entries/current"),
   ("entries", "/api/v1/entries"),
   ("dock", "/api/v1/dock"),
   ("reports", "/api/v1/reports/generate")]

/-- The components of a parsed URL kept by the model:
scheme, network location, path and query. -/
structure UrlParts where
  scheme : String
  netloc : String
  path : String
  query : String
deriving DecidableEq

/-- Split a character list at the first occurrence of `://`, returning the
characters before and after it. -/
def splitScheme : List Char → Option (List Char × List Char)
  | ':' :: '/' :: '/' :: rest => some ([], rest)
  | c :: rest => (splitScheme rest).map (fun p => (c :: p.1, p.2))
  | [] => none

/-- Model of `urllib.parse.urlparse` (an external collaborator), restricted
to URLs of the shape `scheme://netloc` with no path, query or fragment —
the shape of `BASE_URL`, the only string the source parses. -/
def urlparse (u : String) : UrlParts :=
  match splitScheme u.data with
  | some (sch, rest) => ⟨⟨sch⟩, ⟨rest⟩, "", ""⟩
  | none => ⟨"", "", u, ""⟩

/-- Model of Python `str.lower()` (ASCII range, the only characters the
source's URLs contain). -/
def pyLower (s : String) : String :=
  ⟨s.data.map Char.toLower⟩

/-- The string a Python value prints as inside a query component.  Percent
escaping done by the external `urllib.parse.urlencode` is abstracted away;
no claim inspects the encoded query text. -/
def queryValueStr : Value → String
  | .vnull => "None"
  | .vbool b => cond b "True" "False"
  | .vint n => toString n
  | .vstr s => s
  | .vlist xs => "[" ++ listStr xs ++ "]"
where
  listStr : List Value → String
  | [] => ""
  | [x] => queryValueStr x
  | x :: y :: xs => queryValueStr x ++ ", " ++ listStr (y :: xs)

/-- Model of `urllib.parse.urlencode` (an external collaborator) on a
parameter dictionary: `k1=v1&k2=v2&...`. -/
def urlencode (ps : List (String × Value)) : String :=
  String.intercalate "&" (ps.map (fun kv => kv.1 ++ "=" ++ queryValueStr kv.2))

/-- Model of `ParseResult.geturl` for the parts kept by `UrlParts`: the
query is attached, preceded by `?`, exactly when it is non-empty. -/
def UrlParts.geturl (p : UrlParts) : String :=
  p.scheme ++ "://" ++ p.netloc ++ p.path ++
    (if p.query = "" then "" else "?" ++ p.query)

/-- `MinuteDockCall.__api_url` (`minutedock/api.py`, lines 167-182):
parse `BASE_URL`, replace the query when `params` is given, append
`/` and the path variable when `path_var` is given, replace the path,
and return the resulting URL lower-cased.  A missing path raises
`ClientException`.  The f-string `f"/{path_var}"` is the decimal/string
form of the path variable, supplied here already as a string. -/
def __api_url (path : Option String) (path_var : Option String)
    (params : Option (List (String × Value))) : Except ClientException String :=
  match path with
  | some p =>
      let url_parts := urlparse BASE_URL
      let url_parts :=
        match params with
        | some ps => { url_parts with query := urlencode ps }
        | none => url_parts
      let p :=
        match path_var with
        | some pv => p ++ "/" ++ pv
        | none => p
      let url_parts := { url_parts with path := p }
      .ok (pyLower url_parts.geturl)
  | none => .error (ClientException.mk "path must not be None.")

/-- The immutable part of the client configuration plus the `self.headers`
dictionary set up by `MinuteDockCall.__init__` (`minutedock/api.py`,
lines 22-37).  `headers` is a mutable dictionary on the Python object; the
model threads it explicitly through each call. -/
structure MinuteDockClient where
  api_key : String
  account_id : Option String
  headers : List (String × String)
deriving DecidableEq

/-- `MinuteDockCall.__init__`: store the key and account id and build the
header dictionary, with `X-Account-ID` present iff an account id was
specified. -/
def MinuteDockCall.init (api_key : String) (account_id : Option String) :
    MinuteDockClient :=
  { api_key := api_key
    account_id := account_id
    headers :=
      match account_id with
      | none => [("X-API-Key", api_key)]
      | some acc => [("X-API-Key", api_key), ("X-Account-ID", acc)] }

/-- Python dictionary assignment `d[k] = v` on a string-valued dictionary
modelled as an association list: overwrite the existing entry for `k` in
place, or append a new one. -/
def dictSet (d : List (String × String)) (k v : String) : List (String × String) :=
  if d.any (fun p => p.1 == k) then
    d.map (fun p => if p.1 == k then (p.1, v) else p)
  else
    d ++ [(k, v)]

/-- `MinuteDockCall.__remove_none_values` (`minutedock/api.py`,
lines 184-206) up to the final `json.dumps` (the JSON codec is an external
collaborator; the model keeps the body as the stripped dictionary that is
passed to it): drop every key whose value is `None`. -/
def __remove_none_values (data : List (String × Value)) : List (String × Value) :=
  data.filter (fun kv => !(kv.2 == Value.vnull))

/-- The outgoing HTTP request handed to the external `requests.request`:
method, URL, headers, and the optional body (`data=request_payload`),
kept as the stripped dictionary fed to `json.dumps`. -/
structure HttpRequest where
  method : String
  url : String
  headers : List (String × String)
  data : Option (List (String × Value))
deriving DecidableEq

/-- The HTTP response delivered by the external transport: a status code
and the decoded JSON body that `md_response.json()` would return. -/
structure HttpResponse where
  status : Nat
  body : ApiJson
deriving DecidableEq

/-- What `_make_request` does after the transport returns: either the
process exits via `raise SystemExit(e)` carrying the HTTP error for the
given status, or the decoded JSON body is returned. -/
inductive TransportResult where
  | exited (status : Nat)
  | body (j : ApiJson)
deriving DecidableEq

/-- `Response.raise_for_status` of the external `requests` library raises
`HTTPError` exactly for client-error (4xx) and server-error (5xx) status
codes, i.e. for `400 <= status < 600`. -/
def raise_for_status (status : Nat) : Bool :=
  decide (400 ≤ status) && decide (status < 600)

/-- `MinuteDockCall._make_request` (`minutedock/api.py`, lines 42-84).
`request_headers = self.headers` binds the same dictionary object, so the
`Content-Type` assignment made when a payload is present writes through to
`self.headers`; the model returns the updated client alongside the request
that was sent and the transport result. -/
def _make_request (c : MinuteDockClient) (method : String) (path : String)
    (payload : Option (List (String × Value))) (resp : HttpResponse) :
    HttpRequest × MinuteDockClient × TransportResult :=
  let step :=
    match payload with
    | none => (c.headers, c, (none : Option (List (String × Value))))
    | some p =>
        let hs := dictSet c.headers "Content-Type" "application/json"
        (hs, { c with headers := hs }, some (__remove_none_values p))
  match step with
  | (request_headers, c', request_payload) =>
      let req : HttpRequest :=
        { method := method, url := path, headers := request_headers
          data := request_payload }
      if raise_for_status resp.status then (req, c', .exited resp.status)
      else (req, c', .body resp.body)

/-- The value a dispatcher call produces for the caller: either the
process exited (`SystemExit`) with the HTTP error status, or the record
factory's result was returned. -/
inductive CallOutcome where
  | exited (status : Nat)
  | returned (r : FactoryResult)
deriving DecidableEq

/-- `MinuteDockCall._handle_response` (`minutedock/api.py`, lines 152-165)
lifted over the transport result: route a returned JSON body through
`_create_from_dict` at the caller-specified type. -/
def _handle_response (cls : List (String × Value)) : TransportResult → CallOutcome
  | .exited s => .exited s
  | .body j => .returned (_create_from_dict cls j)

/-- The keyword arguments a facade method passes to `_get`/`_post`/`_put`
(`**kwargs` in the source).  Each dispatcher reads only some of the keys:
`_get` reads `path`, `path_var`, `params`; `_post` reads `path`,
`path_var`, `payload`; `_put` reads `path`, `id`, `payload`.  Keys a
caller does not pass are absent (`none`), exactly as `kwargs.get(k, None)`
sees them. -/
structure Kwargs where
  path : Option String := none
  path_var : Option String := none
  params : Option (List (String × Value)) := none
  payload : Option (List (String × Value)) := none
  id : Option String := none

/-- `MinuteDockCall._get` (`minutedock/api.py`, lines 86-104): build the
URL from `path`, `path_var` and `params`, make a GET request with no
payload, and hand the response to the record factory. -/
def _get (c : MinuteDockClient) (cls : List (String × Value)) (kw : Kwargs)
    (resp : HttpResponse) :
    Except ClientException (HttpRequest × MinuteDockClient × CallOutcome) :=
  match __api_url kw.path kw.path_var kw.params with
  | .error e => .error e
  | .ok api_url =>
      match _make_request c "GET" api_url none resp with
      | (req, c', tr) => .ok (req, c', _handle_response cls tr)

/-- `MinuteDockCall._post` (`minutedock/api.py`, lines 106-127): build the
URL from `path` and `path_var` only (no query parameters), make a POST
request carrying the `payload` keyword (and only that keyword), and hand
the response to the record factory. -/
def _post (c : MinuteDockClient) (cls : List (String × Value)) (kw : Kwargs)
    (resp : HttpResponse) :
    Except ClientException (HttpRequest × MinuteDockClient × CallOutcome) :=
  match __api_url kw.path kw.path_var none with
  | .error e => .error e
  | .ok api_url =>
      match _make_request c "POST" api_url kw.payload resp with
      | (req, c', tr) => .ok (req, c', _handle_response cls tr)

/-- `MinuteDockCall._put` (`minutedock/api.py`, lines 129-150): build the
URL from `path` and the `id` keyword, make a PUT request carrying the
`payload` keyword, and hand the response to the record factory. -/
def _put (c : MinuteDockClient) (cls : List (String × Value)) (kw : Kwargs)
    (resp : HttpResponse) :
    Except ClientException (HttpRequest × MinuteDockClient × CallOutcome) :=
  match __api_url kw.path kw.id none with
  | .error e => .error e
  | .ok api_url =>
      match _make_request c "PUT" api_url kw.payload resp with
      | (req, c', tr) => .ok (req, c', _handle_response cls tr)

/-- `MinuteDock.create_contact` (`minutedock/api.py`, lines 331-365):
assemble the contact parameter dictionary and delegate to `_post` with
`cls=Contact`, `path=API_PATH["contacts"]` and the dictionary passed
under the `params` keyword. -/
def create_contact (c : MinuteDockClient)
    (id budget_type budget_frequency budget_target budget_progress
      default_rate_dollars pinned name short_code active : Value)
    (resp : HttpResponse) :
    Except ClientException (HttpRequest × MinuteDockClient × CallOutcome) :=
  _post c Contact.attribute_defaults
    { path := API_PATH.lookup "contacts"
      params := some
        [("id", id), ("budget_type", budget_type),
         ("budget_frequency", budget_frequency),
         ("budget_target", budget_target),
         ("budget_progress", budget_progress),
         ("default_rate_dollars", default_rate_dollars),
         ("pinned", pinned), ("name", name),
         ("short_code", short_code), ("active", active)] }
    resp

/-- `MinuteDock.get_task` (`minutedock/api.py`, lines 514-521): delegate
to `_get` with `cls=Task`, `path=API_PATH["tasks"]` and the identifier
passed under the `id` keyword (`id=id`). -/
def get_task (c : MinuteDockClient) (id : Int) (resp : HttpResponse) :
    Except ClientException (HttpRequest × MinuteDockClient × CallOutcome) :=
  _get c Task.attribute_defaults
    { path := API_PATH.lookup "tasks", id := some (toString id) }
    resp

instance {ε α : Type} [DecidableEq ε] [DecidableEq α] : DecidableEq (Except ε α) :=
  fun a b =>
    match a, b with
    | .ok x, .ok y =>
        if h : x = y then .isTrue (by rw [h]) else .isFalse (by simp [h])
    | .error x, .error y =>
        if h : x = y then .isTrue (by rw [h]) else .isFalse (by simp [h])
    | .ok _, .error _ => .isFalse (by simp)
    | .error _, .ok _ => .isFalse (by simp)

/-- The request a dispatcher call sent, when no exception was raised. -/
def requestOf (x : Except ClientException (HttpRequest × MinuteDockClient × CallOutcome)) :
    Option HttpRequest :=
  match x with
  | .ok r => some r.1
  | .error _ => none

/-- The caller-visible outcome of a dispatcher call, when no exception
was raised. -/
def outcomeOf (x : Except ClientException (HttpRequest × MinuteDockClient × CallOutcome)) :
    Option CallOutcome :=
  match x with
  | .ok r => some r.2.2
  | .error _ => none

/-- The client state (including its header dictionary) after a
`_make_request` call. -/
def clientAfter (r : HttpRequest × MinuteDockClient × TransportResult) :
    MinuteDockClient :=
  r.2.1

/-- The caller-visible outcome of `_make_request` followed by
`_handle_response`, at a caller-specified entity type. -/
def http_call (cls : List (String × Value)) (c : MinuteDockClient)
    (method url : String) (payload : Option (List (String × Value)))
    (resp : HttpResponse) : CallOutcome :=
  _handle_response cls (_make_request c method url payload resp).2.2

/-- Whether `s` ends with `suffix`, by character-list comparison. -/
def strEndsWith (s suffix : String) : Bool :=
  suffix.data.isSuffixOf s.data

/-! ## Association-list lemmas about the attribute bag -/

theorem lookup_mkFields (D m : List (String × Value)) (k : String) :
    (mkFields D m).lookup k = (D.lookup k).map (fun d => (m.lookup k).getD d) := by
  induction D with
  | nil => rfl
  | cons kd D ih =>
      obtain ⟨a, d⟩ := kd
      by_cases h : k = a
      · subst h
        simp [mkFields, List.lookup]
      · have hb : (k == a) = false := beq_eq_false_iff_ne.mpr h
        simpa [mkFields, List.lookup, hb] using ih

theorem mkFields_keys (D m : List (String × Value)) :
    (mkFields D m).map Prod.fst = D.map Prod.fst := by
  induction D with
  | nil => rfl
  | cons kd D _ => simp [mkFields, List.map_cons]

theorem lookup_none_of_not_mem_keys (l : List (String × Value)) (k : String)
    (h : k ∉ l.map Prod.fst) : l.lookup k = none := by
  induction l with
  | nil => rfl
  | cons kv l ih =>
      obtain ⟨a, d⟩ := kv
      simp only [List.map_cons, List.mem_cons] at h
      push_neg at h
      have hb : (k == a) = false := beq_eq_false_iff_ne.mpr h.1
      simpa [List.lookup, hb] using ih h.2

theorem mem_keys_of_mem_keys_filter {l : List (String × Value)}
    {p : String × Value → Bool} {k : String}
    (h : k ∈ (l.filter p).map Prod.fst) : k ∈ l.map Prod.fst := by
  simp only [List.mem_map] at h ⊢
  obtain ⟨kv, hkv, rfl⟩ := h
  exact ⟨kv, (List.mem_filter.mp hkv).1, rfl⟩

theorem mkFields_congr (D x y : List (String × Value))
    (h : ∀ kd ∈ D, x.lookup kd.1 = y.lookup kd.1) : mkFields D x = mkFields D y := by
  induction D with
  | nil => rfl
  | cons kd D ih =>
      simp only [mkFields, List.map_cons]
      rw [h kd (List.mem_cons_self _ _)]
      have := ih (fun kd hk => h kd (List.mem_cons_of_mem _ hk))
      simpa [mkFields] using this

/-- Serialize-then-decode stability of the attribute bag: for a type whose
declared fields have distinct names and all-`None` defaults (true of every
model in `minutedock/models.py`), filtering the bag with `to_dict`'s rule,
rebuilding an entity from the filtered mapping and filtering again gives
the same mapping back. -/
theorem dictFilter_mkFields_roundtrip :
    ∀ (D m : List (String × Value)), (D.map Prod.fst).Nodup →
      (∀ kd ∈ D, kd.2 = Value.vnull) →
      to_dict.dictFilter (mkFields D (to_dict.dictFilter (mkFields D m))) =
        to_dict.dictFilter (mkFields D m) := by
  intro D
  induction D with
  | nil => intro m _ _; rfl
  | cons kd D ih =>
      intro m hnd hvn
      obtain ⟨a, d⟩ := kd
      have hd : d = Value.vnull := hvn (a, d) (List.mem_cons_self _ _)
      subst hd
      simp only [List.map_cons, List.nodup_cons] at hnd
      have ha : a ∉ D.map Prod.fst := hnd.1
      have hnd' : (D.map Prod.fst).Nodup := hnd.2
      have hvn' : ∀ kd ∈ D, kd.2 = Value.vnull :=
        fun kd hk => hvn kd (List.mem_cons_of_mem _ hk)
      have hne : ∀ kd ∈ D, (kd.1 == a) = false := by
        intro kd hk
        refine beq_eq_false_iff_ne.mpr ?_
        intro hc
        exact ha (hc ▸ List.mem_map_of_mem Prod.fst hk)
      set va := (m.lookup a).getD Value.vnull with hva
      have hcons : mkFields ((a, Value.vnull) :: D) m = (a, va) :: mkFields D m := by
        simp [mkFields, hva]
      set s := to_dict.dictFilter (mkFields D m) with hs
      have hsa : s.lookup a = none := by
        refine lookup_none_of_not_mem_keys _ _ ?_
        intro hmem
        exact ha (mkFields_keys D m ▸ mem_keys_of_mem_keys_filter hmem)
      by_cases hk : (Value.is_collection va || Value.truthy va) = true
      · have hfil : to_dict.dictFilter (mkFields ((a, Value.vnull) :: D) m) =
            (a, va) :: s := by
          simp [hcons, to_dict.dictFilter, List.filter_cons, hk, hs]
        rw [hfil]
        have hlook : ((a, va) :: s).lookup a = some va := by simp [List.lookup]
        have htail : mkFields D ((a, va) :: s) = mkFields D s := by
          refine mkFields_congr D _ _ ?_
          intro kd hkd
          simp [List.lookup, hne kd hkd]
        have hcons2 : mkFields ((a, Value.vnull) :: D) ((a, va) :: s) =
            (a, va) :: mkFields D s := by
          simp [mkFields, hlook, htail.symm]
          simpa [mkFields] using htail
        rw [hcons2]
        have : to_dict.dictFilter ((a, va) :: mkFields D s) =
            (a, va) :: to_dict.dictFilter (mkFields D s) := by
          simp [to_dict.dictFilter, List.filter_cons, hk]
        rw [this, hs] at *
        rw [ih m hnd' hvn']
      · have hfil : to_dict.dictFilter (mkFields ((a, Value.vnull) :: D) m) = s := by
          simp only [hcons, to_dict.dictFilter, List.filter_cons]
          simp only [Bool.not_eq_true] at hk
          simp [hk, hs, to_dict.dictFilter]
        rw [hfil]
        have hcons2 : mkFields ((a, Value.vnull) :: D) s =
            (a, Value.vnull) :: mkFields D s := by
          simp [mkFields, hsa]
        rw [hcons2]
        have : to_dict.dictFilter ((a, Value.vnull) :: mkFields D s) =
            to_dict.dictFilter (mkFields D s) := by
          simp [to_dict.dictFilter, List.filter_cons, Value.is_collection, Value.truthy]
        rw [this, hs]
        rw [ih m hnd' hvn']

/-! ## Claim theorems -/

/-- C1: the claim fails on the code.  `_make_request` binds
`request_headers = self.headers` without copying, so the
`Content-Type: application/json` entry written for a call that carries a
body persists in the client's header dictionary: a later call with no body
payload still sends `Content-Type: application/json`.  Concretely: a fresh
client's headers hold only the API key; after one call with a payload the
client's stored headers contain `Content-Type`; a second, body-less call
then sends headers containing `Content-Type` even though its request
carries no body. -/
theorem c1_content_type_outlives_body_call :
    (MinuteDockCall.init "key" none).headers = [("X-API-Key", "key")]
    ∧ (clientAfter (_make_request (MinuteDockCall.init "key" none) "POST" "u1"
          (some [("a", Value.vint 1)]) ⟨200, ApiJson.obj []⟩)).headers =
        [("X-API-Key", "key"), ("Content-Type", "application/json")]
    ∧ (_make_request (clientAfter (_make_request (MinuteDockCall.init "key" none) "POST" "u1"
          (some [("a", Value.vint 1)]) ⟨200, ApiJson.obj []⟩)) "GET" "u2" none
          ⟨200, ApiJson.obj []⟩).1.headers =
        [("X-API-Key", "key"), ("Content-Type", "application/json")]
    ∧ (_make_request (clientAfter (_make_request (MinuteDockCall.init "key" none) "POST" "u1"
          (some [("a", Value.vint 1)]) ⟨200, ApiJson.obj []⟩)) "GET" "u2" none
          ⟨200, ApiJson.obj []⟩).1.data = none := by
  decide

/-- C2: the claim fails on the code.  `create_contact` (like every other
create/update facade method except the time-entry ones, and like
`get_report`) passes its assembled parameter set under the `params`
keyword, but `_post` reads only the `payload` keyword, so the parameters
are dropped and the POST request is sent with no body at all: with a
supplied non-null `name`, the outgoing request has `data = none` (and,
headers built from a fresh client, no `Content-Type`). -/
theorem c2_create_contact_sends_no_body :
    requestOf (create_contact (MinuteDockCall.init "key" none)
        .vnull .vnull .vnull .vnull .vnull .vnull .vnull (.vstr "Acme") .vnull .vnull
        ⟨201, ApiJson.obj []⟩) =
      some ⟨"POST", "https://minutedock.com/api/v1/contacts", [("X-API-Key", "key")], none⟩ := by
  decide

/-- C3: counterexample to the claim as stated.  A `Contact` constructed
with `pinned = False` and a `Contact` constructed with `pinned` absent
(so `pinned = None`) have different full field-value mappings, yet
`__eq__` holds between them, because `to_dict` omits both falsy values
before comparing. -/
theorem c3_full_mapping_equality_fails :
    __eq__ (BaseModel.init Contact.attribute_defaults [("pinned", Value.vbool false)])
        (BaseModel.init Contact.attribute_defaults []) = true
    ∧ (BaseModel.init Contact.attribute_defaults [("pinned", Value.vbool false)]).fields ≠
        (BaseModel.init Contact.attribute_defaults []).fields := by
  decide

/-- C3 (amended): two entity instances compare equal iff their serialized
mappings (the `to_dict` output, which omits falsy non-collection fields)
are equal; in particular an entity built from given field values compares
equal to itself (so two decoded entities with identical field values
compare equal), and two entities whose serialized mappings differ compare
unequal. -/
theorem c3_eq_iff_serialized_mappings (e1 e2 : Entity) (D m : List (String × Value)) :
    (__eq__ e1 e2 = true ↔ to_dict e2 = to_dict e1)
    ∧ __eq__ (BaseModel.init D m) (BaseModel.init D m) = true
    ∧ (to_dict e2 ≠ to_dict e1 → __eq__ e1 e2 = false) := by
  refine ⟨?_, ?_, ?_⟩
  · simp [__eq__]
  · simp [__eq__]
  · intro h
    simp [__eq__, h]

/-- Witness for `c3_eq_iff_serialized_mappings` at two concrete
`Account` entities. -/
theorem c3_eq_iff_serialized_mappings_witness :
    (__eq__ (BaseModel.init Account.attribute_defaults [("id", Value.vint 1)])
        (BaseModel.init Account.attribute_defaults [("id", Value.vint 2)]) = true ↔
      to_dict (BaseModel.init Account.attribute_defaults [("id", Value.vint 2)]) =
        to_dict (BaseModel.init Account.attribute_defaults [("id", Value.vint 1)]))
    ∧ __eq__ (BaseModel.init Account.attribute_defaults [("id", Value.vint 1)])
        (BaseModel.init Account.attribute_defaults [("id", Value.vint 1)]) = true
    ∧ (to_dict (BaseModel.init Account.attribute_defaults [("id", Value.vint 2)]) ≠
        to_dict (BaseModel.init Account.attribute_defaults [("id", Value.vint 1)]) →
      __eq__ (BaseModel.init Account.attribute_defaults [("id", Value.vint 1)])
        (BaseModel.init Account.attribute_defaults [("id", Value.vint 2)]) = false) :=
  c3_eq_iff_serialized_mappings
    (BaseModel.init Account.attribute_defaults [("id", Value.vint 1)])
    (BaseModel.init Account.attribute_defaults [("id", Value.vint 2)])
    Account.attribute_defaults [("id", Value.vint 1)]

/-- C9: the claim fails on the code.  `get_task` passes the identifier
under the `id` keyword, but `_get` reads the `path_var` keyword, so the
identifier is dropped and the GET request addresses the bare collection
path `/api/v1/tasks`, not `/api/v1/tasks/7`. -/
theorem c9_get_task_ignores_id :
    requestOf (get_task (MinuteDockCall.init "key" none) 7 ⟨200, ApiJson.obj []⟩) =
      some ⟨"GET", "https://minutedock.com/api/v1/tasks", [("X-API-Key", "key")], none⟩
    ∧ strEndsWith "https://minutedock.com/api/v1/tasks" "/api/v1/tasks/7" = false := by
  decide

/-- C4: counterexample to the claim as stated.  A simulated response with
status `300` is not a 2xx success, yet `raise_for_status` of the
underlying transport raises only for `400 <= status < 600`, so the call
does not terminate the process: the decoded JSON body is handed to the
record factory and an entity is returned to the caller. -/
theorem c4_status_300_returns_entity :
    ¬ (200 ≤ (300 : Nat) ∧ (300 : Nat) ≤ 299)
    ∧ http_call [("id", Value.vnull)] (MinuteDockCall.init "k" none) "GET" "u" none
        ⟨300, ApiJson.obj [("id", Value.vint 5)]⟩ =
      .returned (.one (BaseModel.init [("id", Value.vnull)] [("id", Value.vint 5)])) :=
  ⟨by decide, by decide⟩

/-- C4 (amended): for every request executed by the dispatcher whose HTTP
response has a client-error or server-error status (4xx/5xx), the process
terminates immediately reporting the status and no entity or partial
result is returned; for any other status reaching the client (2xx, and
also 1xx/3xx, which `raise_for_status` does not treat as errors) the
decoded JSON body is handed to the record factory at the caller-specified
entity type. -/
theorem c4_http_error_fail_fast (cls : List (String × Value)) (c : MinuteDockClient)
    (method url : String) (resp : HttpResponse) :
    (400 ≤ resp.status → resp.status < 600 →
      http_call cls c method url none resp = .exited resp.status)
    ∧ (resp.status < 400 →
      http_call cls c method url none resp = .returned (_create_from_dict cls resp.body))
    ∧ (600 ≤ resp.status →
      http_call cls c method url none resp = .returned (_create_from_dict cls resp.body)) := by
  refine ⟨?_, ?_, ?_⟩
  · intro h1 h2
    simp [http_call, _make_request, raise_for_status, _handle_response, h1, h2]
  · intro h
    have h1 : ¬ (400 ≤ resp.status) := by omega
    simp [http_call, _make_request, raise_for_status, _handle_response, h1]
  · intro h
    have h2 : ¬ (resp.status < 600) := by omega
    simp [http_call, _make_request, raise_for_status, _handle_response, h2]

/-- Witness for `c4_http_error_fail_fast` at a 404 and a 200 response. -/
theorem c4_http_error_fail_fast_witness :
    http_call [] (MinuteDockCall.init "k" none) "GET" "u" none ⟨404, ApiJson.jnull⟩ =
      .exited 404
    ∧ http_call [] (MinuteDockCall.init "k" none) "GET" "u" none ⟨200, ApiJson.obj []⟩ =
        .returned (_create_from_dict [] (ApiJson.obj [])) :=
  ⟨(c4_http_error_fail_fast [] (MinuteDockCall.init "k" none) "GET" "u"
      ⟨404, ApiJson.jnull⟩).1 (by decide) (by decide),
   (c4_http_error_fail_fast [] (MinuteDockCall.init "k" none) "GET" "u"
      ⟨200, ApiJson.obj []⟩).2.1 (by decide)⟩

/-- C5: for every entity type (given by its declared `attribute_defaults`)
and decoded JSON object, the record factory builds one entity from the
mapping; a declared field absent from the input comes out as the declared
default, and a field present in the input takes the supplied value. -/
theorem c5_missing_fields_get_defaults (D m : List (String × Value)) (k : String)
    (d : Value) (hk : D.lookup k = some d) :
    _create_from_dict D (.obj m) = .one (BaseModel.init D m)
    ∧ (m.lookup k = none → (BaseModel.init D m).fields.lookup k = some d)
    ∧ (∀ v, m.lookup k = some v → (BaseModel.init D m).fields.lookup k = some v) := by
  refine ⟨rfl, ?_, ?_⟩
  · intro hm
    simp [BaseModel.init, lookup_mkFields, hk, hm]
  · intro v hm
    simp [BaseModel.init, lookup_mkFields, hk, hm]

/-- Witness for `c5_missing_fields_get_defaults`: a `Contact` decoded from
a mapping holding only `name` has the default `pinned = None` and the
supplied `name`. -/
theorem c5_missing_fields_get_defaults_witness :
    _create_from_dict Contact.attribute_defaults (ApiJson.obj [("name", Value.vstr "Acme")]) =
        .one (BaseModel.init Contact.attribute_defaults [("name", Value.vstr "Acme")])
    ∧ (BaseModel.init Contact.attribute_defaults
        [("name", Value.vstr "Acme")]).fields.lookup "pinned" = some Value.vnull
    ∧ (BaseModel.init Contact.attribute_defaults
        [("name", Value.vstr "Acme")]).fields.lookup "name" = some (Value.vstr "Acme") :=
  ⟨(c5_missing_fields_get_defaults Contact.attribute_defaults [("name", Value.vstr "Acme")]
      "pinned" Value.vnull (by decide)).1,
   (c5_missing_fields_get_defaults Contact.attribute_defaults [("name", Value.vstr "Acme")]
      "pinned" Value.vnull (by decide)).2.1 (by decide),
   (c5_missing_fields_get_defaults Contact.attribute_defaults [("name", Value.vstr "Acme")]
      "name" Value.vnull (by decide)).2.2 (Value.vstr "Acme") (by decide)⟩

/-- C6: for every entity instance of a type whose declared fields have
distinct names and all-`None` defaults (true of every supported type),
encoding the entity with `to_dict` and decoding the resulting mapping back
through the record factory yields a single entity that compares equal
(`__eq__`) to the original — the fields dropped by the omit-falsy rule
decode to the `None` default and are dropped again, so the serialized
mappings coincide. -/
theorem c6_encode_decode_roundtrip (D m : List (String × Value))
    (hnd : (D.map Prod.fst).Nodup) (hvn : ∀ kd ∈ D, kd.2 = Value.vnull) :
    _create_from_dict D (.obj (to_dict (BaseModel.init D m))) =
        .one (BaseModel.init D (to_dict (BaseModel.init D m)))
    ∧ __eq__ (BaseModel.init D (to_dict (BaseModel.init D m)))
        (BaseModel.init D m) = true := by
  refine ⟨rfl, ?_⟩
  have h := dictFilter_mkFields_roundtrip D m hnd hvn
  simp [__eq__, to_dict, BaseModel.init, h]

/-- Witness for `c6_encode_decode_roundtrip`: an `Account` with a truthy
`id` and a falsy `name` survives the encode/decode round trip up to
`__eq__`. -/
theorem c6_encode_decode_roundtrip_witness :
    __eq__ (BaseModel.init Account.attribute_defaults
        (to_dict (BaseModel.init Account.attribute_defaults
          [("id", Value.vint 1), ("name", Value.vstr "")])))
      (BaseModel.init Account.attribute_defaults
        [("id", Value.vint 1), ("name", Value.vstr "")]) = true :=
  (c6_encode_decode_roundtrip Account.attribute_defaults
    [("id", Value.vint 1), ("name", Value.vstr "")] (by decide) (by decide)).2

/-- C7: for every non-null path and path variable, `__api_url` combines
the fixed base authority (scheme `https`, host `minutedock.com`) with the
path, appends `/` followed by the path variable, attaches the encoded
query string exactly when parameters are supplied (the query component is
empty otherwise, so `geturl` adds no `?`), and lower-cases the result; in
particular path `/api/v1/contacts` with numeric path variable `42` yields
`https://minutedock.com/api/v1/contacts/42`, ending in
`/api/v1/contacts/42`. -/
theorem c7_api_url_builder :
    (∀ p pv ps, __api_url (some p) (some pv) (some ps) =
        .ok (pyLower (UrlParts.geturl
          ⟨"https", "minutedock.com", p ++ "/" ++ pv, urlencode ps⟩)))
    ∧ (∀ p pv, __api_url (some p) (some pv) none =
        .ok (pyLower (UrlParts.geturl
          ⟨"https", "minutedock.com", p ++ "/" ++ pv, ""⟩)))
    ∧ __api_url (some "/api/v1/contacts") (some (toString (42 : Int))) none =
        .ok "https://minutedock.com/api/v1/contacts/42"
    ∧ __api_url (some "/api/v1/users") none (some [("active", Value.vbool false)]) =
        .ok "https://minutedock.com/api/v1/users?active=false"
    ∧ strEndsWith "https://minutedock.com/api/v1/contacts/42" "/api/v1/contacts/42" = true :=
  ⟨fun _ _ _ => rfl, fun _ _ => rfl, by decide, by decide, by decide⟩

/-- C8: for every path variable and parameter dictionary, calling the URL
builder with no path raises the library's `ClientException` to the caller
(an `Except.error`, not a `SystemExit`-style process termination and not a
URL). -/
theorem c8_missing_path_raises (pv : Option String)
    (ps : Option (List (String × Value))) :
    __api_url none pv ps = .error (ClientException.mk "path must not be None.") :=
  rfl

/-- Witness for `c8_missing_path_raises` at concrete arguments. -/
theorem c8_missing_path_raises_witness :
    __api_url none (some "42") (some [("active", Value.vbool true)]) =
      .error (ClientException.mk "path must not be None.") :=
  c8_missing_path_raises (some "42") (some [("active", Value.vbool true)])

/-- C10: a declared field holding a collection value — in particular an
empty list, which is falsy — is always included in the `to_dict`
serialization, while the omit-falsy rule applies to non-collection
values: any falsy non-collection value never appears in the output. -/
theorem c10_collection_fields_always_serialized (e : Entity) (k : String) :
    (∀ xs, (k, Value.vlist xs) ∈ e.fields → (k, Value.vlist xs) ∈ to_dict e)
    ∧ Value.truthy (Value.vlist []) = false
    ∧ (∀ v, v.is_collection = false → v.truthy = false → (k, v) ∉ to_dict e) := by
  refine ⟨?_, rfl, ?_⟩
  · intro xs h
    simp only [to_dict, to_dict.dictFilter, List.mem_filter]
    exact ⟨h, by simp [Value.is_collection]⟩
  · intro v hc ht hmem
    simp only [to_dict, to_dict.dictFilter, List.mem_filter] at hmem
    simp [hc, ht] at hmem

/-- Witness for `c10_collection_fields_always_serialized`: a `TimeEntry`
with an empty `task_ids` list and a zero `duration` serializes the empty
list but not the zero. -/
theorem c10_collection_fields_always_serialized_witness :
    ("task_ids", Value.vlist []) ∈ to_dict (BaseModel.init TimeEntry.attribute_defaults
        [("task_ids", Value.vlist []), ("duration", Value.vint 0)])
    ∧ ("duration", Value.vint 0) ∉ to_dict (BaseModel.init TimeEntry.attribute_defaults
        [("task_ids", Value.vlist []), ("duration", Value.vint 0)]) :=
  ⟨(c10_collection_fields_always_serialized _ "task_ids").1 [] (by decide),
   (c10_collection_fields_always_serialized _ "duration").2.2 (Value.vint 0)
      (by decide) (by decide)⟩
